import Mathlib

/-!
Verification of the retry/fetch core of `jrc_common.py` (JaneliaSciComp/jrc_common).

We shallowly embed the three core pieces of the module:
  * the `retry` decorator (exponential-backoff retry loop),
  * the `_call_url` resilient fetcher (status-code dispatch, format dispatch,
    allowed-empty status codes),
  * the `get_pmid` DOI-to-PMID resolution chain (primary NCBI ID-conversion
    lookup, then an optional secondary PubMed e-search lookup).

Python exceptions are embedded as an error type and each function returns
`Except`; the HTTP responses delivered by the network are inputs to the
embedded functions, and the external JSON/XML parsers (`requests`' JSON
decoder, `xmltodict.parse`) and the `requests` status-reason table are
function parameters.
-/

/-- JSON-like values: the shape of parsed JSON bodies and of the dicts
produced by `xmltodict.parse`. Python dicts are embedded as association
lists (keys unique in practice; lookups take the first match). -/
inductive JValue where
  | null : JValue
  | bool : Bool → JValue
  | num : Int → JValue
  | str : String → JValue
  | arr : List JValue → JValue
  | obj : List (String × JValue) → JValue
deriving Repr

/-- Python `==` between a parsed value and a string literal: true exactly
when the value is that string (any non-string compares unequal). -/
def pyEqStr : JValue → String → Bool
  | .str s, t => s = t
  | _, _ => false

/-- Transport-level failures raised by `requests.get`
(`requests.exceptions.RequestException` subclasses). The first three are the
members of the module's `TIMEOUT` tuple. -/
inductive ReqError where
  | connectTimeout : ReqError
  | readTimeout : ReqError
  | timeout : ReqError
  | connectionError : ReqError
  | otherRequestError : String → ReqError
deriving DecidableEq, Repr

/-- Embedded Python exceptions raised by the core functions. -/
inductive PyError where
  /-- a propagated `requests.exceptions.RequestException` -/
  | request : ReqError → PyError
  /-- `requests.exceptions.JSONDecodeError` raised by `_call_url` (json branch) -/
  | jsonDecode : String → PyError
  /-- the wrapped `Exception` raised by `_call_url` when `xmltodict.parse` fails -/
  | xmlDecode : String → PyError
  /-- a raw `xmltodict.parse` failure propagated unchanged by `get_pmid` -/
  | expat : String → PyError
  /-- a plain `Exception(message)`, e.g. the unknown-format error -/
  | exc : String → PyError
  /-- `Exception` carrying the status dict raised by `_call_url` on a bad
  status: the numeric status code (stringified in the source), the textual
  reason from the `requests` status table, and the URL -/
  | statusExc : Nat → String → String → PyError
  /-- the module's `PMIDNotFound(message, details)` custom exception -/
  | pmidNotFound : String → String → PyError
  /-- Python `KeyError` from a dict subscript on a missing key -/
  | keyError : String → PyError
  /-- Python `IndexError` from a list subscript out of range -/
  | indexError : PyError
  /-- Python `TypeError` from subscripting a non-container -/
  | typeError : PyError
  /-- Python `AttributeError` (e.g. `.isdigit()` on a non-string) -/
  | attributeError : PyError
deriving DecidableEq, Repr

/-- An HTTP response as seen by the module: status code and raw body text. -/
structure HttpResponse where
  statusCode : Nat
  body : String
deriving DecidableEq, Repr

/-- Trace of one call through the `retry` decorator's wrapper: the outcome
(`none` models the wrapper falling through the `while` loop, which happens
only for `max_tries = 0` and yields Python `None`), the number of times the
wrapped function was invoked, and the list of sleep durations passed to
`time.sleep`, in order. -/
structure RetryTrace (ε α : Type) where
  result : Option (Except ε α)
  calls : Nat
  sleeps : List Nat
deriving Repr

/-- The `while tries < max_tries` loop of the wrapper produced by the
`retry` decorator. `f n` is the outcome of the (n+1)-st invocation of the
wrapped function; `retryable` embeds the `except exceptions` clause
(membership of the raised exception in the decorator's `exceptions` tuple).

The loop condition is encoded structurally: `fuel` stands for
`maxTries - tries`, so `fuel = 0` is exactly `tries < max_tries` failing
(the loop exits and the wrapper returns Python `None`); each iteration
decrements it as `tries` increments. On a retryable failure the source
increments `tries`, re-raises when `tries == max_tries`, and otherwise
sleeps `delay * (2 ** (tries - 1))` seconds before the next iteration. -/
def retryLoop {ε α : Type} (maxTries delay : Nat) (retryable : ε → Bool)
    (f : Nat → Except ε α) :
    Nat → Nat → Nat → List Nat → RetryTrace ε α
  | 0, _, calls, sleeps => ⟨none, calls, sleeps⟩
  | fuel + 1, tries, calls, sleeps =>
    match f calls with
    | .ok a => ⟨some (.ok a), calls + 1, sleeps⟩
    | .error e =>
      if retryable e then
        if tries + 1 = maxTries then
          ⟨some (.error e), calls + 1, sleeps⟩
        else
          retryLoop maxTries delay retryable f fuel (tries + 1) (calls + 1)
            (sleeps ++ [delay * 2 ^ tries])
      else
        ⟨some (.error e), calls + 1, sleeps⟩

/-- The wrapper produced by `retry(max_tries, delay, exceptions)` applied to
one call: the loop starts with `tries = 0` (so its fuel is `max_tries`), no
invocations yet, and no sleeps. Source defaults are `max_tries=3`, `delay=1`,
`exceptions=TIMEOUT`. -/
def retry {ε α : Type} (maxTries delay : Nat) (retryable : ε → Bool)
    (f : Nat → Except ε α) : RetryTrace ε α :=
  retryLoop maxTries delay retryable f maxTries 0 0 []

/-- Membership in the module's `TIMEOUT` tuple
(`ConnectTimeout`, `ReadTimeout`, `Timeout`): the decorator's default
retryable-exception set. -/
def timeoutRetryable : PyError → Bool
  | .request .connectTimeout => true
  | .request .readTimeout => true
  | .request .timeout => true
  | _ => false

/-- Truthiness of a parsed value under Python `if response` / `and`:
`None`, `False`, `0`, empty string, empty list and empty dict are falsy. -/
def truthy : JValue → Bool
  | .null => false
  | .bool b => b
  | .num n => n != 0
  | .str s => !s.isEmpty
  | .arr xs => !xs.isEmpty
  | .obj kvs => !kvs.isEmpty

/-- Python subscript `v[key]` with a string key: on a dict, the value at the
key (first match) or `KeyError`; on anything else a `TypeError`. -/
def pySubscript (v : JValue) (key : String) : Except PyError JValue :=
  match v with
  | .obj kvs =>
    match kvs.find? (fun kv => kv.1 = key) with
    | some kv => .ok kv.2
    | none => .error (.keyError key)
  | _ => .error .typeError

/-- Python subscript `v[i]` with a numeric index: on a list, the element or
`IndexError`; on a string, the one-character string; on a dict, `KeyError`
(an integer is not one of its string keys); otherwise `TypeError`. -/
def pyIndex (v : JValue) (i : Nat) : Except PyError JValue :=
  match v with
  | .arr xs =>
    match xs.get? i with
    | some x => .ok x
    | none => .error .indexError
  | .str s =>
    match s.toList.get? i with
    | some c => .ok (.str c.toString)
    | none => .error .indexError
  | .obj _ => .error (.keyError (toString i))
  | _ => .error .typeError

/-- Python `key in v` for a string key: key membership on a dict, element
equality on a list, substring test on a string, `TypeError` otherwise. -/
def pyContains (key : String) (v : JValue) : Except PyError Bool :=
  match v with
  | .obj kvs => .ok (kvs.any (fun kv => kv.1 = key))
  | .arr xs => .ok (xs.any (fun x => pyEqStr x key))
  | .str s => .ok (if key.isEmpty then true else (s.splitOn key).length ≥ 2)
  | _ => .error .typeError

/-- Python `str.isdigit`: nonempty and all characters are digits. -/
def pyIsDigit (s : String) : Bool :=
  !s.isEmpty && s.toList.all Char.isDigit

mutual

/-- `json.dumps` on a parsed value, with the default separators
(`", "` between items, `": "` after keys). -/
def jsonDumps : JValue → String
  | .null => "null"
  | .bool b => if b then "true" else "false"
  | .num n => toString n
  | .str s => "\"" ++ s ++ "\""
  | .arr xs => "[" ++ jsonDumpsArr xs ++ "]"
  | .obj kvs => "\x7b" ++ jsonDumpsObj kvs ++ "\x7d"

/-- `json.dumps` body of a list: items joined by `", "`. -/
def jsonDumpsArr : List JValue → String
  | [] => ""
  | [x] => jsonDumps x
  | x :: rest => jsonDumps x ++ ", " ++ jsonDumpsArr rest

/-- `json.dumps` body of a dict: `"key": value` pairs joined by `", "`. -/
def jsonDumpsObj : List (String × JValue) → String
  | [] => ""
  | [kv] => "\"" ++ kv.1 ++ "\": " ++ jsonDumps kv.2
  | kv :: rest => "\"" ++ kv.1 ++ "\": " ++ jsonDumps kv.2 ++ ", " ++ jsonDumpsObj rest

end

/-- Base URL of the NCBI ID-conversion service (`NCBI_BASE` in the source;
the DOI or PMID is appended to it). -/
def NCBI_BASE : String :=
  "https://www.ncbi.nlm.nih.gov/pmc/utils/idconv/v1.0/?tool=update_dois&email=svirskasr@hhmi.org&format=json&ids="

/-- Base URL of the PubMed e-search service (`PUBMED_BASE` in the source). -/
def PUBMED_BASE : String :=
  "https://eutils.ncbi.nlm.nih.gov/entrez/eutils/esearch.fcgi?db=pubmed"

/-- Embedding of `_call_url(url, headers, timeout, fmt, allow)`.

`http` is the outcome of the one `requests.get` the function performs (the
headers and timeout only shape that request, so they are absorbed into this
input); `pj` and `px` are the external JSON decoder (`req.json()`) and XML
decoder (`xmltodict.parse`); `statusReason` is the `requests` status-code
reason table `requests.status_codes._codes`, a plain dict and hence a
*partial* map: `_codes[req.status_code][0]` raises `KeyError` for a status
code absent from the table, before the structured exception is built, so
the `none` case of the table propagates that `KeyError`. Source defaults
are `fmt='json'` and `allow=[404]`.

The source checks `status_code == 200` first and dispatches on the format
there, then checks membership in `allow` (returning the empty dict), and
otherwise raises an `Exception` carrying status, reason and URL. -/
def call_url (pj px : String → Except String JValue)
    (statusReason : Nat → Option String)
    (url : String) (fmt : String) (allow : List Nat)
    (http : Except ReqError HttpResponse) : Except PyError JValue :=
  match http with
  | .error err => .error (.request err)
  | .ok req =>
    if req.statusCode = 200 then
      if fmt = "json" then
        match pj req.body with
        | .ok jstr => .ok jstr
        | .error msg =>
          .error (.jsonDecode ("Could not decode response from " ++ url ++ " : " ++ msg))
      else if fmt = "xml" then
        match px req.body with
        | .ok jstr => .ok jstr
        | .error msg =>
          .error (.xmlDecode ("Could not decode XML response from " ++ url ++ " : " ++ msg))
      else
        .error (.exc ("Unknown format: " ++ fmt))
    else if req.statusCode ∈ allow then
      .ok (.obj [])
    else
      match statusReason req.statusCode with
      | some reason => .error (.statusExc req.statusCode reason url)
      | none => .error (.keyError (toString req.statusCode))

/-- The primary-stage guard and extraction of `get_pmid`, line by line:
`if response and 'status' in response and response['status'] == 'ok' and
'pmid' in response['records'][0]: return response['records'][0]['pmid']`.
Returns `some pmid` when the guard holds, `none` when it evaluates to false,
and an error when evaluating it raises (the `response['records'][0]`
subscripts inside the guard are unguarded). -/
def primaryCheck (response : JValue) : Except PyError (Option JValue) :=
  if truthy response then
    match pyContains "status" response with
    | .error e => .error e
    | .ok false => .ok none
    | .ok true =>
      match pySubscript response "status" with
      | .error e => .error e
      | .ok status =>
        if pyEqStr status "ok" then
          match pySubscript response "records" with
          | .error e => .error e
          | .ok records =>
            match pyIndex records 0 with
            | .error e => .error e
            | .ok rec0 =>
              match pyContains "pmid" rec0 with
              | .error e => .error e
              | .ok false => .ok none
              | .ok true =>
                match pySubscript rec0 "pmid" with
                | .error e => .error e
                | .ok pmid => .ok (some pmid)
        else .ok none
  else .ok none

/-- The repeated guard of `get_pmid`'s secondary stage:
`'eSearchResult' in data and 'Count' in data['eSearchResult'] and
data['eSearchResult']['Count'] == c`. -/
def countGuard (data : JValue) (c : String) : Except PyError Bool :=
  match pyContains "eSearchResult" data with
  | .error e => .error e
  | .ok false => .ok false
  | .ok true =>
    match pySubscript data "eSearchResult" with
    | .error e => .error e
    | .ok esr =>
      match pyContains "Count" esr with
      | .error e => .error e
      | .ok false => .ok false
      | .ok true =>
        match pySubscript esr "Count" with
        | .error e => .error e
        | .ok cnt => .ok (pyEqStr cnt c)

/-- The trailing `raise PMIDNotFound(f"Invalid PMID for ...", json.dumps(data))`
of `get_pmid`, reached when neither count branch returns or raises. -/
def invalidPmidError (doi : String) (data : JValue) : Except PyError JValue :=
  .error (.pmidNotFound ("Invalid PMID for " ++ doi) (jsonDumps data))

/-- The body of `get_pmid`'s secondary stage after a 200 response has been
parsed by `xmltodict.parse` into `data`: the `Count == '1'` branch returns
the identifier when present and numeric (`None` when non-numeric), the
`Count == '0'` branch raises `PMIDNotFound` carrying the serialized
`ErrorList`, `WarningList`, or whole document, and every remaining shape
falls through to the trailing invalid-PMID raise. -/
def secondaryDispatch (doi : String) (data : JValue) : Except PyError JValue :=
  match countGuard data "1" with
  | .error e => .error e
  | .ok true =>
    match pySubscript data "eSearchResult" with
    | .error e => .error e
    | .ok esr =>
      match pyContains "IdList" esr with
      | .error e => .error e
      | .ok false => invalidPmidError doi data
      | .ok true =>
        match pySubscript esr "IdList" with
        | .error e => .error e
        | .ok idList =>
          match pyContains "Id" idList with
          | .error e => .error e
          | .ok false => invalidPmidError doi data
          | .ok true =>
            match pySubscript idList "Id" with
            | .error e => .error e
            | .ok pmid =>
              match pmid with
              | .str s => if pyIsDigit s then .ok (.str s) else .ok .null
              | _ => .error .attributeError
  | .ok false =>
    match countGuard data "0" with
    | .error e => .error e
    | .ok false => invalidPmidError doi data
    | .ok true =>
      match pySubscript data "eSearchResult" with
      | .error e => .error e
      | .ok esr =>
        match pyContains "ErrorList" esr with
        | .error e => .error e
        | .ok true =>
          match pySubscript esr "ErrorList" with
          | .error e => .error e
          | .ok errList =>
            .error (.pmidNotFound ("No PMID found for " ++ doi) (jsonDumps errList))
        | .ok false =>
          match pyContains "WarningList" esr with
          | .error e => .error e
          | .ok true =>
            match pySubscript esr "WarningList" with
            | .error e => .error e
            | .ok warnList =>
              .error (.pmidNotFound ("No PMID found for " ++ doi) (jsonDumps warnList))
          | .ok false =>
            .error (.pmidNotFound ("No PMID found for " ++ doi) (jsonDumps data))

/-- Trace of one `get_pmid` call: the value returned or exception raised,
and whether the secondary PubMed e-search service was contacted. -/
structure GetPmidTrace where
  result : Except PyError JValue
  secondaryCalled : Bool
deriving Repr

/-- Embedding of `get_pmid(doi, timeout)`.

The primary stage calls `_call_url` on `NCBI_BASE + doi` with
`allow=[400, 403, 404]` (and the default `fmt='json'`); `primaryHttp` is the
network outcome of that request. If the primary guard yields a PMID it is
returned. Otherwise, if `NCBI_API_KEY` is not in the environment
(`ncbiApiKey = none`), the empty string is returned. Otherwise the secondary
stage issues a raw `requests.get` on the PubMed e-search URL
(`secondaryHttp`), raises `PMIDNotFound` carrying the status code on a
non-200 response, parses the body with `xmltodict.parse` (`px`, failures
propagated unchanged), and dispatches on the parsed document. -/
def get_pmid (pj px : String → Except String JValue) (statusReason : Nat → Option String)
    (doi : String) (ncbiApiKey : Option String)
    (primaryHttp secondaryHttp : Except ReqError HttpResponse) : GetPmidTrace :=
  match call_url pj px statusReason (NCBI_BASE ++ doi) "json" [400, 403, 404] primaryHttp with
  | .error e => ⟨.error e, false⟩
  | .ok response =>
    match primaryCheck response with
    | .error e => ⟨.error e, false⟩
    | .ok (some pmid) => ⟨.ok pmid, false⟩
    | .ok none =>
      match ncbiApiKey with
      | none => ⟨.ok (.str ""), false⟩
      | some _ =>
        match secondaryHttp with
        | .error e => ⟨.error (.request e), true⟩
        | .ok resp =>
          if resp.statusCode = 200 then
            match px resp.body with
            | .error msg => ⟨.error (.expat msg), true⟩
            | .ok data => ⟨secondaryDispatch doi data, true⟩
          else
            ⟨.error (.pmidNotFound ("Could not find PMID for " ++ doi)
              ("Status: " ++ toString resp.statusCode)), true⟩

/-- Helper: a run of the retry loop in which the wrapped function fails
retryably on its next `k` invocations and succeeds on the one after, with
enough fuel left (`k < fuel`), returns the success, makes `k + 1` further
invocations, and appends exactly the `k` sleeps
`delay * 2 ^ tries, …, delay * 2 ^ (tries + k - 1)`. -/
theorem retryLoop_fail_succeed {ε α : Type} (maxTries delay : Nat)
    (retryable : ε → Bool) (f : Nat → Except ε α) (e : ε) (a : α)
    (he : retryable e = true) :
    ∀ k fuel tries calls sleeps, tries + fuel = maxTries → k < fuel →
      (∀ i, i < k → f (calls + i) = .error e) → f (calls + k) = .ok a →
      retryLoop maxTries delay retryable f fuel tries calls sleeps =
        ⟨some (.ok a), calls + k + 1,
          sleeps ++ (List.range k).map (fun i => delay * 2 ^ (tries + i))⟩ := by
  intro k
  induction k with
  | zero =>
    intro fuel tries calls sleeps hinv hk hf hs
    obtain ⟨fuel', rfl⟩ : ∃ m, fuel = m + 1 := ⟨fuel - 1, by omega⟩
    rw [retryLoop]
    rw [show f calls = .ok a from by simpa using hs]
    simp
  | succ k ih =>
    intro fuel tries calls sleeps hinv hk hf hs
    obtain ⟨fuel', rfl⟩ : ∃ m, fuel = m + 1 := ⟨fuel - 1, by omega⟩
    have hfc : f calls = .error e := by simpa using hf 0 (by omega)
    have hne : ¬tries + 1 = maxTries := by omega
    rw [retryLoop]
    simp only [hfc, he, hne, if_true, if_false, ite_true, ite_false]
    rw [ih fuel' (tries + 1) (calls + 1) (sleeps ++ [delay * 2 ^ tries])
      (by omega) (by omega)
      (fun i hi => by rw [show calls + 1 + i = calls + (i + 1) by omega]; exact hf (i + 1) (by omega))
      (by rw [show calls + 1 + k = calls + (k + 1) by omega]; exact hs)]
    rw [List.range_succ_eq_map, List.map_cons, List.map_map]
    have hfun : ((fun i => delay * 2 ^ (tries + i)) ∘ Nat.succ) =
        (fun i => delay * 2 ^ (tries + 1 + i)) := by
      funext i
      simp only [Function.comp_apply]
      rw [show tries + Nat.succ i = tries + 1 + i from by omega]
    rw [hfun]
    simp only [RetryTrace.mk.injEq, Nat.add_zero, List.append_assoc, List.singleton_append]
    exact ⟨trivial, by omega, trivial⟩

/-- C1: for every wrapped operation that raises a retryable timeout exactly
`k` times and then succeeds, with `k < max_tries`, the retry wrapper returns
the operation's success value, the operation is invoked exactly `k + 1`
times, and exactly `k` sleeps occur whose durations are
`delay, 2 * delay, 4 * delay, …` (`delay * 2 ^ i` for `i = 0, …, k - 1`:
each double the previous, starting at the base delay). -/
theorem retry_timeouts_then_success {ε α : Type} (maxTries delay k : Nat)
    (retryable : ε → Bool) (f : Nat → Except ε α) (e : ε) (a : α)
    (he : retryable e = true)
    (hf : ∀ i, i < k → f i = .error e)
    (hs : f k = .ok a)
    (hk : k < maxTries) :
    retry maxTries delay retryable f =
      ⟨some (.ok a), k + 1, (List.range k).map (fun i => delay * 2 ^ i)⟩ := by
  have h := retryLoop_fail_succeed maxTries delay retryable f e a he k maxTries 0 0 []
    (by omega) hk (fun i hi => by simpa using hf i hi) (by simpa using hs)
  simpa [retry] using h

/-- Witness for C1: an operation that times out twice and then returns 42,
under `max_tries = 3`, `delay = 1`: the wrapper returns 42 after 3
invocations with sleeps of 1 and 2 seconds. -/
theorem retry_timeouts_then_success_witness :
    retry 3 1 (fun _ : Nat => true)
      (fun i => if i < 2 then (Except.error 7 : Except Nat Nat) else .ok 42) =
      ⟨some (.ok 42), 3, [1, 2]⟩ := by
  have h := retry_timeouts_then_success 3 1 2 (fun _ : Nat => true)
    (fun i => if i < 2 then (Except.error 7 : Except Nat Nat) else .ok 42) 7 42
    rfl (fun i hi => by interval_cases i <;> rfl) rfl (by omega)
  exact h

/-- C2: for every wrapped operation that raises a non-retryable exception on
its first invocation (and at least one attempt is allowed), the retry
wrapper invokes the operation exactly once, performs no sleep, and
propagates that same exception unchanged. -/
theorem retry_nonretryable_propagates {ε α : Type} (maxTries delay : Nat)
    (retryable : ε → Bool) (f : Nat → Except ε α) (e : ε)
    (he : retryable e = false) (hf : f 0 = .error e) (hm : 0 < maxTries) :
    retry maxTries delay retryable f = ⟨some (.error e), 1, []⟩ := by
  obtain ⟨m, rfl⟩ : ∃ m, maxTries = m + 1 := ⟨maxTries - 1, by omega⟩
  rw [retry, retryLoop]
  simp only [hf, he, Bool.false_eq_true, if_false, ite_false]

/-- Witness for C2: an operation that raises a non-retryable error on its
first invocation under `max_tries = 3`: one invocation, no sleeps, the
error propagated. -/
theorem retry_nonretryable_propagates_witness :
    retry 3 1 (fun _ : Nat => false)
      (fun _ => (Except.error 9 : Except Nat Nat)) =
      ⟨some (.error 9), 1, []⟩ := by
  exact retry_nonretryable_propagates 3 1 (fun _ : Nat => false)
    (fun _ => (Except.error 9 : Except Nat Nat)) 9 rfl rfl (by omega)

/-- Helper: the retry loop never makes more invocations than it has fuel. -/
theorem retryLoop_calls_le {ε α : Type} (maxTries delay : Nat)
    (retryable : ε → Bool) (f : Nat → Except ε α) :
    ∀ fuel tries calls sleeps,
      (retryLoop maxTries delay retryable f fuel tries calls sleeps).calls ≤
        calls + fuel := by
  intro fuel
  induction fuel with
  | zero =>
    intro tries calls sleeps
    simp [retryLoop]
  | succ n ih =>
    intro tries calls sleeps
    rw [retryLoop]
    cases hfc : f calls with
    | ok a => simp
    | error e =>
      by_cases hr : retryable e = true
      · by_cases hfin : tries + 1 = maxTries
        · simp [hr, hfin]
        · simp only [hr, hfin, if_true, if_false, ite_true, ite_false]
          have := ih (tries + 1) (calls + 1) (sleeps ++ [delay * 2 ^ tries])
          omega
      · simp [hr]

/-- Helper: if every allowed attempt raises a retryable failure, the loop
(entered with `calls = tries` and the fuel invariant) propagates the failure
of the final allowed attempt. -/
theorem retryLoop_all_fail {ε α : Type} (maxTries delay : Nat)
    (retryable : ε → Bool) (f : Nat → Except ε α) (errs : Nat → ε)
    (hf : ∀ i, i < maxTries → f i = .error (errs i) ∧ retryable (errs i) = true) :
    ∀ fuel tries sleeps, fuel ≠ 0 → tries + fuel = maxTries →
      (retryLoop maxTries delay retryable f fuel tries tries sleeps).result =
        some (.error (errs (maxTries - 1))) := by
  intro fuel
  induction fuel with
  | zero =>
    intro tries sleeps h0
    exact absurd rfl h0
  | succ n ih =>
    intro tries sleeps _ hinv
    have htl : tries < maxTries := by omega
    obtain ⟨h1, h2⟩ := hf tries htl
    rw [retryLoop]
    by_cases hfin : tries + 1 = maxTries
    · simp only [h1, h2, hfin, if_true, ite_true]
      rw [show maxTries - 1 = tries from by omega]
    · simp only [h1, h2, hfin, if_true, if_false, ite_true, ite_false]
      exact ih (tries + 1) (sleeps ++ [delay * 2 ^ tries]) (by omega) (by omega)

/-- C6: for every configuration and operation, the number of invocations in
one wrapped call never exceeds `max_tries`; and if every allowed attempt
raises a retryable failure (so in particular the final allowed attempt
does), the final attempt's failure is propagated to the caller. -/
theorem retry_attempt_bound_final_raise {ε α : Type} (maxTries delay : Nat)
    (retryable : ε → Bool) (f : Nat → Except ε α) :
    (retry maxTries delay retryable f).calls ≤ maxTries ∧
    (∀ errs : Nat → ε,
      (∀ i, i < maxTries → f i = .error (errs i) ∧ retryable (errs i) = true) →
      0 < maxTries →
      (retry maxTries delay retryable f).result =
        some (.error (errs (maxTries - 1)))) := by
  constructor
  · have h := retryLoop_calls_le maxTries delay retryable f maxTries 0 0 []
    simpa [retry] using h
  · intro errs hf hpos
    exact retryLoop_all_fail maxTries delay retryable f errs hf maxTries 0 []
      (by omega) (by omega)

/-- Witness for C6: an operation that fails retryably on every attempt under
`max_tries = 3`: at most 3 invocations, and the third attempt's error (its
index, 2) is the propagated result. -/
theorem retry_attempt_bound_final_raise_witness :
    (retry 3 1 (fun _ : Nat => true)
      (fun i => (Except.error i : Except Nat Nat))).calls ≤ 3 ∧
    (retry 3 1 (fun _ : Nat => true)
      (fun i => (Except.error i : Except Nat Nat))).result = some (.error 2) := by
  have h := retry_attempt_bound_final_raise 3 1 (fun _ : Nat => true)
    (fun i => (Except.error i : Except Nat Nat))
  exact ⟨h.1, h.2 (fun i => i) (fun i _ => ⟨rfl, rfl⟩) (by omega)⟩

/-- Counterexample for C3 as stated: when 200 itself is placed in the
allowed-empty set, a 200 response is *not* returned as an empty mapping
regardless of format — the 200 branch is checked first and an unknown
declared format raises, even though the status code is in the allow set. -/
theorem call_url_allowed_empty_cex :
    (200 ∈ ([200] : List Nat)) ∧
    call_url (fun _ => .ok .null) (fun _ => .ok .null) (fun _ => some "ok")
      "http://h" "bogus" [200] (.ok ⟨200, ""⟩) =
      .error (.exc "Unknown format: bogus") :=
  ⟨by decide, rfl⟩

/-- C3 (amended): for every HTTP status code in the allowed-empty set other
than 200, `_call_url` returns an empty mapping and raises no error,
regardless of the response body or the declared format (a 200 status is
dispatched to the body-parsing branch first). -/
theorem call_url_allowed_empty (pj px : String → Except String JValue)
    (statusReason : Nat → Option String) (url fmt : String) (allow : List Nat)
    (r : HttpResponse) (hmem : r.statusCode ∈ allow) (h200 : r.statusCode ≠ 200) :
    call_url pj px statusReason url fmt allow (.ok r) = .ok (.obj []) := by
  simp [call_url, h200, hmem]

/-- Witness for C3 (amended): a 404 response with a non-empty body and an
unknown declared format, with the default `allow = [404]`, yields the empty
mapping. -/
theorem call_url_allowed_empty_witness :
    call_url (fun _ => .ok .null) (fun _ => .ok .null) (fun _ => some "not found")
      "http://h" "bogus" [404] (.ok ⟨404, "zzz"⟩) = .ok (.obj []) := by
  exact call_url_allowed_empty (fun _ => .ok .null) (fun _ => .ok .null)
    (fun _ => some "not found") "http://h" "bogus" [404] ⟨404, "zzz"⟩
    (by decide) (by decide)

/-- Counterexample for C4 as stated: the reason table
`requests.status_codes._codes` is a plain dict that does not cover every
status code a server can return; for a 520 response (absent from the table)
with `allow = [404]`, the lookup `_codes[520]` raises a bare `KeyError`
before the structured exception is built, so `_call_url` does *not* raise a
status error carrying the code, reason and URL. -/
theorem call_url_status_error_cex :
    ((520 : Nat) ≠ 200 ∧ (520 : Nat) ∉ ([404] : List Nat)) ∧
    call_url (fun _ => .ok .null) (fun _ => .ok .null)
      (fun c => if c = 500 then some "internal server error" else none)
      "http://h" "json" [404] (.ok ⟨520, ""⟩) =
      .error (.keyError "520") :=
  ⟨by decide, rfl⟩

/-- C4 (amended): for every HTTP response whose status code is neither 200
nor in the allowed-empty set and which is present in the `requests`
status-reason table, `_call_url` raises a status error carrying the numeric
status code equal to the actual HTTP status, the status's textual reason,
and the request URL (for a code absent from the table, the table lookup
itself raises a `KeyError` instead). -/
theorem call_url_status_error (pj px : String → Except String JValue)
    (statusReason : Nat → Option String) (url fmt : String) (allow : List Nat)
    (r : HttpResponse) (reason : String)
    (h200 : r.statusCode ≠ 200) (hmem : r.statusCode ∉ allow)
    (htab : statusReason r.statusCode = some reason) :
    call_url pj px statusReason url fmt allow (.ok r) =
      .error (.statusExc r.statusCode reason url) := by
  simp [call_url, h200, hmem, htab]

/-- Witness for C4 (amended): a 500 response with `allow = [404]` and 500
present in the reason table raises the status error carrying 500, its
reason, and the URL. -/
theorem call_url_status_error_witness :
    call_url (fun _ => .ok .null) (fun _ => .ok .null)
      (fun c => if c = 500 then some "internal server error" else none)
      "http://h" "json" [404] (.ok ⟨500, ""⟩) =
      .error (.statusExc 500 "internal server error" "http://h") := by
  exact call_url_status_error (fun _ => .ok .null) (fun _ => .ok .null)
    (fun c => if c = 500 then some "internal server error" else none)
    "http://h" "json" [404] ⟨500, ""⟩ "internal server error"
    (by decide) (by decide) rfl

/-- Counterexample for C5 as stated: an invocation with an unknown declared
format does not always fail — on a 404 response with the default
`allow = [404]` the call returns the empty mapping and raises nothing,
because the format is only examined inside the 200 branch. -/
theorem call_url_unknown_format_cex :
    ("bogus" ≠ "json" ∧ "bogus" ≠ "xml") ∧
    call_url (fun _ => .ok .null) (fun _ => .ok .null) (fun _ => some "not found")
      "http://h" "bogus" [404] (.ok ⟨404, ""⟩) = .ok (.obj []) :=
  ⟨by decide, rfl⟩

/-- C5 (amended): for every invocation of `_call_url` with a declared format
other than JSON or XML whose HTTP response has status 200, the call fails
with the "unknown format" configuration error (on non-200 statuses the
declared format is never consulted). -/
theorem call_url_unknown_format (pj px : String → Except String JValue)
    (statusReason : Nat → Option String) (url fmt : String) (allow : List Nat)
    (body : String) (hj : fmt ≠ "json") (hx : fmt ≠ "xml") :
    call_url pj px statusReason url fmt allow (.ok ⟨200, body⟩) =
      .error (.exc ("Unknown format: " ++ fmt)) := by
  simp [call_url, hj, hx]

/-- Witness for C5 (amended): format "csv" on a 200 response raises the
unknown-format error. -/
theorem call_url_unknown_format_witness :
    call_url (fun _ => .ok .null) (fun _ => .ok .null) (fun _ => some "ok")
      "http://h" "csv" [404] (.ok ⟨200, "a,b"⟩) =
      .error (.exc "Unknown format: csv") := by
  exact call_url_unknown_format (fun _ => .ok .null) (fun _ => .ok .null)
    (fun _ => some "ok") "http://h" "csv" [404] "a,b" (by decide) (by decide)

/-- Helper: a successful dict subscript exposes the underlying `find?`. -/
theorem pySubscript_obj_find {kvs : List (String × JValue)} {key : String}
    {w : JValue} (h : pySubscript (.obj kvs) key = .ok w) :
    ∃ kv, kvs.find? (fun kv => kv.1 = key) = some kv ∧ kv.2 = w := by
  simp only [pySubscript] at h
  cases hf : kvs.find? (fun kv => kv.1 = key) with
  | none => simp [hf] at h
  | some kv =>
    simp only [hf] at h
    exact ⟨kv, rfl, by simpa using h⟩

/-- Helper: a successful subscript on a value means `key in value` is true
(Python's membership test agrees with its subscript on dicts). -/
theorem pyContains_true_of_pySubscript {v : JValue} {key : String} {w : JValue}
    (h : pySubscript v key = .ok w) : pyContains key v = .ok true := by
  cases v with
  | obj kvs =>
    obtain ⟨kv, hf, _⟩ := pySubscript_obj_find h
    have hp := List.find?_some hf
    have hmem := List.mem_of_find?_eq_some hf
    simp only [pyContains, Except.ok.injEq]
    rw [List.any_eq_true]
    exact ⟨kv, hmem, hp⟩
  | null => simp [pySubscript] at h
  | bool b => simp [pySubscript] at h
  | num n => simp [pySubscript] at h
  | str s => simp [pySubscript] at h
  | arr xs => simp [pySubscript] at h

/-- Helper: a successful dict subscript means the dict is truthy
(a non-empty dict). -/
theorem truthy_of_pySubscript {kvs : List (String × JValue)} {key : String}
    {w : JValue} (h : pySubscript (.obj kvs) key = .ok w) :
    truthy (.obj kvs) = true := by
  cases kvs with
  | nil => simp [pySubscript] at h
  | cons a l => simp [truthy]

/-- Helper: the primary-stage guard extracts the PMID when the parsed
conversion response is a dict whose `status` is the string `ok` and whose
`records` list has a first record carrying a `pmid` field. -/
theorem primaryCheck_some {kvs : List (String × JValue)} {rec0 pmidv : JValue}
    {rest : List JValue}
    (h2 : pySubscript (.obj kvs) "status" = .ok (.str "ok"))
    (h3 : pySubscript (.obj kvs) "records" = .ok (.arr (rec0 :: rest)))
    (h4 : pySubscript rec0 "pmid" = .ok pmidv) :
    primaryCheck (.obj kvs) = .ok (some pmidv) := by
  have ht := truthy_of_pySubscript h2
  have hc1 := pyContains_true_of_pySubscript h2
  have hc2 := pyContains_true_of_pySubscript h4
  have hidx : pyIndex (.arr (rec0 :: rest)) 0 = .ok rec0 := rfl
  simp only [primaryCheck, ht, if_true, ite_true, hc1, h2, pyEqStr, h3, hidx,
    hc2, h4]
  simp [pyEqStr]

/-- C7: for every DOI whose primary ID-conversion response (HTTP 200, JSON)
reports overall status "ok" and contains a `pmid` field in its first record,
`get_pmid` returns that PMID and never contacts the secondary PubMed search
service; moreover the primary call treats HTTP 400, 403 and 404 as
allowed-empty (returning the empty mapping rather than raising). -/
theorem get_pmid_primary_success (pj px : String → Except String JValue)
    (statusReason : Nat → Option String) (doi : String) (ncbiApiKey : Option String)
    (sh : Except ReqError HttpResponse) (body : String)
    (kvs : List (String × JValue)) (rec0 pmidv : JValue) (rest : List JValue)
    (h1 : pj body = .ok (.obj kvs))
    (h2 : pySubscript (.obj kvs) "status" = .ok (.str "ok"))
    (h3 : pySubscript (.obj kvs) "records" = .ok (.arr (rec0 :: rest)))
    (h4 : pySubscript rec0 "pmid" = .ok pmidv) :
    get_pmid pj px statusReason doi ncbiApiKey (.ok ⟨200, body⟩) sh =
      ⟨.ok pmidv, false⟩ ∧
    (∀ status body2, status = 400 ∨ status = 403 ∨ status = 404 →
      call_url pj px statusReason (NCBI_BASE ++ doi) "json" [400, 403, 404]
        (.ok ⟨status, body2⟩) = .ok (.obj [])) := by
  constructor
  · have hcall : call_url pj px statusReason (NCBI_BASE ++ doi) "json"
        [400, 403, 404] (.ok ⟨200, body⟩) = .ok (.obj kvs) := by
      simp [call_url, h1]
    have hpc := primaryCheck_some h2 h3 h4
    simp [get_pmid, hcall, hpc]
  · intro status body2 hst
    rcases hst with h | h | h <;> subst h <;> rfl

/-- Witness for C7: a primary response with status "ok" and PMID 12345 in
its record yields 12345 with no secondary call, and a 404 from the primary
service yields the empty mapping. -/
theorem get_pmid_primary_success_witness :
    get_pmid (fun _ => .ok (.obj [("status", .str "ok"),
        ("records", .arr [.obj [("pmid", .str "12345")]])]))
      (fun _ => .error "no xml") (fun _ => some "reason") "10.1/jrc1" none
      (.ok ⟨200, "body"⟩) (.ok ⟨200, ""⟩) = ⟨.ok (.str "12345"), false⟩ ∧
    call_url (fun _ => .ok (.obj [("status", .str "ok"),
        ("records", .arr [.obj [("pmid", .str "12345")]])]))
      (fun _ => .error "no xml") (fun _ => some "reason")
      (NCBI_BASE ++ "10.1/jrc1") "json" [400, 403, 404] (.ok ⟨404, ""⟩) =
      .ok (.obj []) := by
  have h := get_pmid_primary_success
    (fun _ => .ok (.obj [("status", .str "ok"),
      ("records", .arr [.obj [("pmid", .str "12345")]])]))
    (fun _ => .error "no xml") (fun _ => some "reason") "10.1/jrc1" none
    (.ok ⟨200, ""⟩) "body"
    [("status", .str "ok"), ("records", .arr [.obj [("pmid", .str "12345")]])]
    (.obj [("pmid", .str "12345")]) (.str "12345") []
    rfl rfl rfl rfl
  exact ⟨h.1, h.2 404 "" (Or.inr (Or.inr rfl))⟩

/-- C8: for every DOI whose primary conversion yields no PMID (the primary
guard evaluates to false) and with no `NCBI_API_KEY` configured, `get_pmid`
returns the empty string, raises nothing, and never contacts the secondary
PubMed search service. -/
theorem get_pmid_no_secondary_credential (pj px : String → Except String JValue)
    (statusReason : Nat → Option String) (doi : String)
    (primaryHttp sh : Except ReqError HttpResponse) (response : JValue)
    (hcall : call_url pj px statusReason (NCBI_BASE ++ doi) "json"
      [400, 403, 404] primaryHttp = .ok response)
    (hnone : primaryCheck response = .ok none) :
    get_pmid pj px statusReason doi none primaryHttp sh =
      ⟨.ok (.str ""), false⟩ := by
  simp [get_pmid, hcall, hnone]

/-- Witness for C8: primary service returns 404 (allowed-empty), no API key:
the result is the empty string and the secondary service is never called. -/
theorem get_pmid_no_secondary_credential_witness :
    get_pmid (fun _ => .ok .null) (fun _ => .error "no xml") (fun _ => some "reason")
      "10.1/jrc2" none (.ok ⟨404, ""⟩) (.ok ⟨200, ""⟩) =
      ⟨.ok (.str ""), false⟩ := by
  exact get_pmid_no_secondary_credential (fun _ => .ok .null)
    (fun _ => .error "no xml") (fun _ => some "reason") "10.1/jrc2"
    (.ok ⟨404, ""⟩) (.ok ⟨200, ""⟩) (.obj []) rfl rfl

/-- C9: for every DOI whose primary lookup yields no PMID, with an API key
configured, and whose secondary PubMed search returns HTTP 200 with
well-formed XML whose `Count` is the string "0" and which carries an
`ErrorList` substructure, `get_pmid` raises `PMIDNotFound` whose diagnostic
detail is the `json.dumps` serialization of that `ErrorList`. -/
theorem get_pmid_secondary_errorlist (pj px : String → Except String JValue)
    (statusReason : Nat → Option String) (doi apiKey : String)
    (primaryHttp : Except ReqError HttpResponse) (response : JValue)
    (xbody : String) (dkvs ekvs : List (String × JValue)) (errList : JValue)
    (hcall : call_url pj px statusReason (NCBI_BASE ++ doi) "json"
      [400, 403, 404] primaryHttp = .ok response)
    (hnone : primaryCheck response = .ok none)
    (hparse : px xbody = .ok (.obj dkvs))
    (hesr : pySubscript (.obj dkvs) "eSearchResult" = .ok (.obj ekvs))
    (hcount : pySubscript (.obj ekvs) "Count" = .ok (.str "0"))
    (herr : pySubscript (.obj ekvs) "ErrorList" = .ok errList) :
    get_pmid pj px statusReason doi (some apiKey) primaryHttp
      (.ok ⟨200, xbody⟩) =
      ⟨.error (.pmidNotFound ("No PMID found for " ++ doi)
        (jsonDumps errList)), true⟩ := by
  have hc1 := pyContains_true_of_pySubscript hesr
  have hc2 := pyContains_true_of_pySubscript hcount
  have hc3 := pyContains_true_of_pySubscript herr
  have e01 : pyEqStr (.str "0") "1" = false := rfl
  have e00 : pyEqStr (.str "0") "0" = true := rfl
  have hg1 : countGuard (.obj dkvs) "1" = .ok false := by
    simp only [countGuard, hc1, hesr, hc2, hcount, e01]
  have hg0 : countGuard (.obj dkvs) "0" = .ok true := by
    simp only [countGuard, hc1, hesr, hc2, hcount, e00]
  simp [get_pmid, hcall, hnone, hparse, secondaryDispatch, hg1, hg0, hesr,
    hc3, herr]

/-- Witness for C9: primary 404, key configured, secondary 200 whose parsed
XML has `Count = "0"` and an `ErrorList` of one `PhraseNotFound` entry: the
raised `PMIDNotFound` carries that serialized error list. -/
theorem get_pmid_secondary_errorlist_witness :
    get_pmid (fun _ => .ok .null)
      (fun _ => .ok (.obj [("eSearchResult", .obj [("Count", .str "0"),
        ("ErrorList", .obj [("PhraseNotFound", .str "10.1/jrc3")])])]))
      (fun _ => some "reason") "10.1/jrc3" (some "KEY") (.ok ⟨404, ""⟩)
      (.ok ⟨200, "<xml/>"⟩) =
      ⟨.error (.pmidNotFound "No PMID found for 10.1/jrc3"
        (jsonDumps (.obj [("PhraseNotFound", .str "10.1/jrc3")]))), true⟩ := by
  have h := get_pmid_secondary_errorlist (fun _ => .ok .null)
    (fun _ => .ok (.obj [("eSearchResult", .obj [("Count", .str "0"),
      ("ErrorList", .obj [("PhraseNotFound", .str "10.1/jrc3")])])]))
    (fun _ => some "reason") "10.1/jrc3" "KEY" (.ok ⟨404, ""⟩) (.obj []) "<xml/>"
    [("eSearchResult", .obj [("Count", .str "0"),
      ("ErrorList", .obj [("PhraseNotFound", .str "10.1/jrc3")])])]
    [("Count", .str "0"), ("ErrorList", .obj [("PhraseNotFound", .str "10.1/jrc3")])]
    (.obj [("PhraseNotFound", .str "10.1/jrc3")])
    rfl rfl rfl rfl rfl rfl
  exact h

/-- C10: the primary-stage guard of `get_pmid` subscripts
`response['records'][0]` without guarding: on a non-empty primary response
with status "ok" but no `records` key, the call raises an uncaught
`KeyError` instead of falling through to the secondary stage or returning a
typed error. -/
theorem get_pmid_unguarded_records_subscript :
    get_pmid (fun _ => .ok (.obj [("status", .str "ok")]))
      (fun _ => .error "no xml") (fun _ => some "reason") "10.1/jrc4" none
      (.ok ⟨200, ""⟩) (.ok ⟨200, ""⟩) =
      ⟨.error (.keyError "records"), false⟩ := rfl
